import Mathlib

/-!
Verification of the Teensy LTC2946 driver (`src/LTC2946.h`).

The repository ships the class header `LTC2946.h`: it holds the register
map constants, the in-class member initializers (acknowledgement
accumulator, mode, conversion flags, calibration constants, LSB weights)
and the declarations with doc comments of every method. Method bodies
live in a separate translation unit that is not part of `src/`; those
are modelled from the specification, each such definition carries a doc
comment starting with `Modelled from the spec:`.

Embedding conventions: C `float` values are modelled as exact rationals
(`ℚ`); the 8-bit acknowledgement accumulator `uint8_t I2C_ACK` is a
natural number kept below 256 by reducing every ORed-in outcome mod 256;
bus traffic is made observable as an explicit list of `BusEvent`s so that
"performs no bus write" is a provable statement.
-/

/-- One observable I2C bus transaction: a register write carrying data
bytes, or a register read of a given byte width. -/
inductive BusEvent where
  | write : ℕ → List ℕ → BusEvent
  | read : ℕ → ℕ → BusEvent
  deriving Repr, DecidableEq

/-- Per-channel LSB weight constants and default calibration values,
taken verbatim from the member initializers of `class LTC2946` in
`src/LTC2946.h` (C `float` modelled as exact `ℚ`). -/
def LTC2946_ADIN_lsb : ℚ := 5.001221e-4

/-- Typical Delta-sense LSB weight in volts (`src/LTC2946.h`). -/
def LTC2946_DELTA_SENSE_lsb : ℚ := 2.5006105e-5

/-- Typical VIN LSB weight in volts (`src/LTC2946.h`). -/
def LTC2946_VIN_lsb : ℚ := 2.5006105e-2

/-- Typical POWER LSB weight in V^2 (`src/LTC2946.h`, commented there as
VIN_lsb * DELTA_SENSE_lsb). -/
def LTC2946_Power_lsb : ℚ := 6.25305e-7

/-- Internal time-base LSB (`src/LTC2946.h`: `4101.00/250000.00`). -/
def LTC2946_INTERNAL_TIME_lsb : ℚ := 4101 / 250000

/-- Device state: the private data members of `class LTC2946` with their
default initializers from `src/LTC2946.h`. -/
structure LTC2946 where
  I2C_ADDRESS : ℕ
  I2C_WIRE : ℕ := 0
  I2C_ACK : ℕ := 0
  LTC2946_mode : ℕ := 0
  use_conversion : Bool := false
  use_legacy : Bool := false
  VIN_CONST : ℚ := 0.02485474
  CURRENT_CONST : ℚ := 0.00119677419
  POWER_CONST : ℚ := 0.00003171126055
  resistor : ℚ := 0.02
  deriving Repr, DecidableEq

/-- Constructor `LTC2946(wire_num, wire_addr)`: stores the wire number
and device address; every other member keeps its in-class initializer
from `src/LTC2946.h`. -/
def LTC2946.construct (wire_num wire_addr : ℕ) : LTC2946 :=
  { I2C_ADDRESS := wire_addr % 256, I2C_WIRE := wire_num % 256 }

/-- Modelled from the spec: every register operation ORs its per-call
acknowledgement outcome (0 = ack, nonzero = nack) into the device-wide
sticky accumulator `I2C_ACK` (`ack |= ...`; the body of the register
access layer is in the missing translation unit). The outcome is an
8-bit value, hence the reduction mod 256. -/
def recordAck (s : LTC2946) (ack : ℕ) : LTC2946 :=
  { s with I2C_ACK := s.I2C_ACK ||| ack % 256 }

/-- Modelled from the spec: `ErrorCheck()` returns true when no
transaction has failed since the last check and unconditionally clears
the sticky accumulator (read-and-clear); header doc comment: "Returns
True if no errors present. Resets ack variable on read". The body is in
the missing translation unit. -/
def ErrorCheck (s : LTC2946) : Bool × LTC2946 :=
  (s.I2C_ACK == 0, { s with I2C_ACK := 0 })

/-- Modelled from the spec: the 12-bit read path reads two bytes into a
16-bit container MSB-first and shifts away the 4 low don't-care bits,
yielding a right-justified 12-bit code (`LTC2946_read_12_bits`, body in
the missing translation unit). Arguments are the two raw bus bytes. -/
def LTC2946_read_12_bits (msb lsb : ℕ) : ℕ :=
  ((msb % 256) * 256 + lsb % 256) / 16

/-- Modelled from the spec: the 24-bit read path concatenates three raw
bus bytes MSB-first (`LTC2946_read_24_bits`, body in the missing
translation unit). -/
def LTC2946_read_24_bits (b2 b1 b0 : ℕ) : ℕ :=
  (b2 % 256) * 65536 + (b1 % 256) * 256 + b0 % 256

/-- Modelled from the spec: `codeToVoltage(code, lsbWeight) =
code * lsbWeight`, the shared legacy voltage conversion. -/
def codeToVoltage (adc_code : ℕ) (lsbWeight : ℚ) : ℚ :=
  adc_code * lsbWeight

/-- Modelled from the spec: `LTC2946_VIN_code_to_voltage` multiplies the
raw code by the VIN LSB weight member constant (body in the missing
translation unit). -/
def LTC2946_VIN_code_to_voltage (adc_code : ℕ) : ℚ :=
  adc_code * LTC2946_VIN_lsb

/-- Modelled from the spec: `LTC2946_ADIN_code_to_voltage` multiplies
the raw code by the ADIN LSB weight member constant (body in the missing
translation unit). -/
def LTC2946_ADIN_code_to_voltage (adc_code : ℕ) : ℚ :=
  adc_code * LTC2946_ADIN_lsb

/-- Modelled from the spec: `LTC2946_code_to_current(code) =
(code * DELTA_SENSE_lsb) / resistor`, using the member resistor value
(body in the missing translation unit). -/
def LTC2946_code_to_current (s : LTC2946) (adc_code : ℕ) : ℚ :=
  adc_code * LTC2946_DELTA_SENSE_lsb / s.resistor

/-- Modelled from the spec: `LTC2946_code_to_power(code) =
(code * Power_lsb) / resistor`, using the member resistor value (body in
the missing translation unit). -/
def LTC2946_code_to_power (s : LTC2946) (adc_code : ℤ) : ℚ :=
  adc_code * LTC2946_Power_lsb / s.resistor

/-- Modelled from the spec: `codeToEnergy = codeToPower * timeLsb`,
with the internal time-base LSB (body in the missing translation
unit). -/
def LTC2946_code_to_energy (s : LTC2946) (adc_code : ℤ) : ℚ :=
  LTC2946_code_to_power s adc_code * LTC2946_INTERNAL_TIME_lsb

/-- Modelled from the spec: `codeToCoulombs = codeToCurrent * timeLsb`,
with the internal time-base LSB (body in the missing translation
unit). -/
def LTC2946_code_to_coulombs (s : LTC2946) (adc_code : ℕ) : ℚ :=
  LTC2946_code_to_current s adc_code * LTC2946_INTERNAL_TIME_lsb

/-- Modelled from the spec: the time counter code times the internal
time-base LSB gives seconds (body in the missing translation unit). -/
def LTC2946_code_to_time (time_code : ℚ) : ℚ :=
  time_code * LTC2946_INTERNAL_TIME_lsb

/-- Setter `EnableConversion(state)` stores the flag
(`src/LTC2946.h` doc comment; body in the missing translation unit). -/
def EnableConversion (s : LTC2946) (state : Bool) : LTC2946 :=
  { s with use_conversion := state }

/-- Setter `EnableLegacy(state)` stores the flag (`src/LTC2946.h` doc
comment; body in the missing translation unit). -/
def EnableLegacy (s : LTC2946) (state : Bool) : LTC2946 :=
  { s with use_legacy := state }

/-- Modelled from the spec: `SetSnapShot()` transitions the stored mode
to snapshot (1) and performs no bus write (header doc comment: "does not
directly write over I2C"; body in the missing translation unit). The
second component is the emitted bus traffic. -/
def SetSnapShot (s : LTC2946) : LTC2946 × List BusEvent :=
  ({ s with LTC2946_mode := 1 }, [])

/-- Default Control A value from `src/LTC2946.h`:
`CHANNEL_CONFIG_V_C_3 | SENSE_PLUS | OFFSET_CAL_EVERY | ADIN_GND`. -/
def CTRLA : ℕ := 0x00 ||| 0x18 ||| 0x00 ||| 0x00

/-- Default Control B value from `src/LTC2946.h`: the AND of the
disable masks with `ENABLE_ACC` and `DISABLE_AUTO_RESET`. -/
def CTRLB : ℕ := 0x7F &&& 0xBF &&& 0xDF &&& 0xEF &&& 0x00 &&& 0x00

/-- Default GPIO_CFG value from `src/LTC2946.h`:
`GPIO1_OUT_LOW | GPIO2_IN_ACC | GPIO3_OUT_ALERT`. -/
def GPIO_CFG : ℕ := 0x00 ||| 0x00 ||| 0x00

/-- Modelled from the spec: `SetContinuous()` writes the default
Control-A / Control-B / GPIO configuration registers and transitions the
stored mode to continuous (0) (body in the missing translation unit). -/
def SetContinuous (s : LTC2946) : LTC2946 × List BusEvent :=
  ({ s with LTC2946_mode := 0 },
   [BusEvent.write 0x00 [CTRLA], BusEvent.write 0x01 [CTRLB],
    BusEvent.write 0x33 [GPIO_CFG]])

/-- Modelled from the spec: `ReadVIN()` performs one 12-bit read at the
VIN register, accumulates the acknowledgement outcome, and routes the
code through the selected conversion path: raw when conversion is
disabled, the experimental multiplier `VIN_CONST` when legacy is off,
the legacy LSB formula when legacy is on (body in the missing
translation unit). Arguments `msb lsb` are the raw bus bytes and `ack`
the transaction outcome. -/
def ReadVIN (s : LTC2946) (msb lsb ack : ℕ) : ℚ × LTC2946 :=
  let code := LTC2946_read_12_bits msb lsb
  let t := recordAck s ack
  if s.use_conversion then
    if s.use_legacy then (LTC2946_VIN_code_to_voltage code, t)
    else ((code : ℚ) * s.VIN_CONST, t)
  else ((code : ℚ), t)

/-- Modelled from the spec: `ReadCurrent()` performs one 12-bit read at
the delta-sense register and converts like `ReadVIN`, with
`CURRENT_CONST` on the experimental path and the delta-sense legacy
formula on the legacy path (body in the missing translation unit). -/
def ReadCurrent (s : LTC2946) (msb lsb ack : ℕ) : ℚ × LTC2946 :=
  let code := LTC2946_read_12_bits msb lsb
  let t := recordAck s ack
  if s.use_conversion then
    if s.use_legacy then (LTC2946_code_to_current s code, t)
    else ((code : ℚ) * s.CURRENT_CONST, t)
  else ((code : ℚ), t)

/-- Modelled from the spec: `ReadPower()` performs one 24-bit read at
the power register and converts like the other reads, with `POWER_CONST`
on the experimental path and the power legacy formula on the legacy path
(body in the missing translation unit). -/
def ReadPower (s : LTC2946) (b2 b1 b0 ack : ℕ) : ℚ × LTC2946 :=
  let code := LTC2946_read_24_bits b2 b1 b0
  let t := recordAck s ack
  if s.use_conversion then
    if s.use_legacy then (LTC2946_code_to_power s code, t)
    else ((code : ℚ) * s.POWER_CONST, t)
  else ((code : ℚ), t)

/-- Sample device handle used by witnesses: wire 0, address 0xD4. -/
def sampleDev : LTC2946 := LTC2946.construct 0 212

/-- Helper: an OR with a nonzero right operand is nonzero. -/
theorem or_ne_zero_of_right {x y : ℕ} (h : y ≠ 0) : x ||| y ≠ 0 := by
  intro h0
  apply h
  apply Nat.eq_of_testBit_eq
  intro i
  have hb := congrArg (fun z => Nat.testBit z i) h0
  simp only [Nat.testBit_or, Nat.zero_testBit, Bool.or_eq_false_iff] at hb
  simp [hb.2]

/-- Claim C1: `ErrorCheck()` returns true exactly when no transaction
has failed since the previous check (the sticky accumulator is zero; a
successful transaction, outcome 0, leaves the accumulator unchanged),
and it unconditionally clears the accumulator; after two consecutive
failed transactions a first `ErrorCheck()` reports errors occurred
(false) and an immediately following second call reports no errors
(true). -/
theorem ErrorCheck_read_and_clear (s : LTC2946) (a1 a2 : ℕ)
    (h1 : a1 % 256 ≠ 0) (h2 : a2 % 256 ≠ 0) :
    ((ErrorCheck s).1 = true ↔ s.I2C_ACK = 0) ∧
    (ErrorCheck s).2.I2C_ACK = 0 ∧
    (recordAck s 0).I2C_ACK = s.I2C_ACK ∧
    (ErrorCheck (recordAck (recordAck s a1) a2)).1 = false ∧
    (ErrorCheck ((ErrorCheck (recordAck (recordAck s a1) a2)).2)).1 = true := by
  refine ⟨by simp [ErrorCheck], rfl, by simp [recordAck], ?_, rfl⟩
  simp only [ErrorCheck, recordAck, beq_eq_false_iff_ne, ne_eq]
  exact or_ne_zero_of_right h2

/-- Witness for C1 at the sample device with two failed transactions
(outcome 1 each). -/
theorem ErrorCheck_read_and_clear_witness :
    ((1 : ℕ) % 256 ≠ 0) ∧
    (((ErrorCheck sampleDev).1 = true ↔ sampleDev.I2C_ACK = 0) ∧
     (ErrorCheck sampleDev).2.I2C_ACK = 0 ∧
     (recordAck sampleDev 0).I2C_ACK = sampleDev.I2C_ACK ∧
     (ErrorCheck (recordAck (recordAck sampleDev 1) 1)).1 = false ∧
     (ErrorCheck ((ErrorCheck (recordAck (recordAck sampleDev 1) 1)).2)).1 = true) :=
  ⟨by decide, ErrorCheck_read_and_clear sampleDev 1 1 (by decide) (by decide)⟩

/-- Claim C2: the 12-bit read path assembles the two raw bus bytes
MSB-first and discards the low 4 bits, yielding a right-justified
12-bit code; the code does not depend on the low 4 bits of the second
byte. -/
theorem read12_masks_low_bits (msb l1 l2 : ℕ) (h : l1 % 256 / 16 = l2 % 256 / 16) :
    LTC2946_read_12_bits msb l1 = (msb % 256) * 16 + l1 % 256 / 16 ∧
    LTC2946_read_12_bits msb l1 < 4096 ∧
    LTC2946_read_12_bits msb l1 = LTC2946_read_12_bits msb l2 := by
  unfold LTC2946_read_12_bits
  omega

/-- Witness for C2 at the raw byte pairs (0xAB, 0x0F) and (0xAB, 0x03)
named by the claim. -/
theorem read12_masks_low_bits_witness :
    ((0x0F : ℕ) % 256 / 16 = (0x03 : ℕ) % 256 / 16) ∧
    (LTC2946_read_12_bits 0xAB 0x0F = (0xAB % 256) * 16 + 0x0F % 256 / 16 ∧
     LTC2946_read_12_bits 0xAB 0x0F < 4096 ∧
     LTC2946_read_12_bits 0xAB 0x0F = LTC2946_read_12_bits 0xAB 0x03) :=
  ⟨by decide, read12_masks_low_bits 0xAB 0x0F 0x03 (by decide)⟩

/-- Claim C3: the legacy VIN conversion multiplies the raw code by the
VIN LSB weight 2.5006105E-02, and raw code 1000 converts to 25.006105
volts exactly (hence approximately as claimed). -/
theorem VIN_code_to_voltage_spec (adc_code : ℕ) :
    LTC2946_VIN_code_to_voltage adc_code = adc_code * (2.5006105e-2 : ℚ) ∧
    LTC2946_VIN_code_to_voltage 1000 = 25.006105 := by
  constructor
  · rfl
  · norm_num [LTC2946_VIN_code_to_voltage, LTC2946_VIN_lsb]

/-- Claim C4: the legacy current conversion computes
(code * DELTA_SENSE_lsb) / resistor; with resistor 0.02 Ω, raw code 500
converts to 0.625152625 A, within 1e-6 of the claimed 0.625153 A. -/
theorem code_500_to_current (s : LTC2946) (h : s.resistor = 0.02) :
    LTC2946_code_to_current s 500 = 500 * (2.5006105e-5 : ℚ) / 0.02 ∧
    LTC2946_code_to_current s 500 = 0.625152625 ∧
    |LTC2946_code_to_current s 500 - 0.625153| < 1e-6 := by
  unfold LTC2946_code_to_current
  rw [h]
  norm_num [LTC2946_DELTA_SENSE_lsb, abs_lt]

/-- Witness for C4 at the sample device, whose resistor default is
0.02 Ω. -/
theorem code_500_to_current_witness :
    sampleDev.resistor = 0.02 ∧
    (LTC2946_code_to_current sampleDev 500 = 500 * (2.5006105e-5 : ℚ) / 0.02 ∧
     LTC2946_code_to_current sampleDev 500 = 0.625152625 ∧
     |LTC2946_code_to_current sampleDev 500 - 0.625153| < 1e-6) :=
  ⟨rfl, code_500_to_current sampleDev rfl⟩

/-- Counterexample for C5: the stored power LSB constant 6.25305E-07 is
not exactly the product of the VIN LSB weight and the DELTA_SENSE LSB
weight (that product is 6.25305287271025E-07). -/
theorem Power_lsb_ne_product :
    LTC2946_Power_lsb ≠ LTC2946_VIN_lsb * LTC2946_DELTA_SENSE_lsb := by
  norm_num [LTC2946_Power_lsb, LTC2946_VIN_lsb, LTC2946_DELTA_SENSE_lsb]

/-- Claim C5 (amended): the legacy power conversion computes
(code * Power_lsb) / resistor, and the power LSB constant 6.25305E-07
approximates the product of the VIN and DELTA_SENSE LSB weights to
within 3e-13 (it is not exactly equal to it). -/
theorem code_to_power_formula (s : LTC2946) (adc_code : ℤ) :
    LTC2946_code_to_power s adc_code = adc_code * LTC2946_Power_lsb / s.resistor ∧
    LTC2946_Power_lsb = 6.25305e-7 ∧
    |LTC2946_Power_lsb - LTC2946_VIN_lsb * LTC2946_DELTA_SENSE_lsb| < 3e-13 := by
  refine ⟨rfl, rfl, ?_⟩
  rw [abs_lt]
  norm_num [LTC2946_Power_lsb, LTC2946_VIN_lsb, LTC2946_DELTA_SENSE_lsb]

/-- Claim C6: legacy voltage conversion is linear — code 0 converts to
0 and doubling the code doubles the voltage — and the VIN and ADIN
conversions are the same multiply-by-LSB formula, differing only in the
LSB weight constant supplied. -/
theorem codeToVoltage_linear (lsbWeight : ℚ) (c : ℕ) :
    codeToVoltage 0 lsbWeight = 0 ∧
    codeToVoltage (2 * c) lsbWeight = 2 * codeToVoltage c lsbWeight ∧
    LTC2946_VIN_code_to_voltage c = codeToVoltage c LTC2946_VIN_lsb ∧
    LTC2946_ADIN_code_to_voltage c = codeToVoltage c LTC2946_ADIN_lsb := by
  refine ⟨by simp [codeToVoltage], ?_, rfl, rfl⟩
  unfold codeToVoltage
  push_cast
  ring

/-- Claim C7: every code-to-physical-unit conversion is a pure function
of the raw code, the LSB weight constants and the resistor value: two
device states that agree on the resistor calibration give identical
conversion results whatever their mode, flags or accumulated
acknowledgements, and inside the measurement accessors the conversion
step leaves the device state exactly as the bus acknowledgement
accumulation left it (no further mutation, no bus I/O). -/
theorem conversions_pure (s t : LTC2946) (c : ℕ) (d : ℤ) (q : ℚ)
    (msb lsb b2 b1 b0 ack : ℕ) (h : s.resistor = t.resistor) :
    LTC2946_code_to_current s c = LTC2946_code_to_current t c ∧
    LTC2946_code_to_power s d = LTC2946_code_to_power t d ∧
    LTC2946_code_to_energy s d = LTC2946_code_to_energy t d ∧
    LTC2946_code_to_coulombs s c = LTC2946_code_to_coulombs t c ∧
    LTC2946_code_to_time q = q * LTC2946_INTERNAL_TIME_lsb ∧
    (ReadVIN s msb lsb ack).2 = recordAck s ack ∧
    (ReadCurrent s msb lsb ack).2 = recordAck s ack ∧
    (ReadPower s b2 b1 b0 ack).2 = recordAck s ack := by
  refine ⟨by simp [LTC2946_code_to_current, h],
    by simp [LTC2946_code_to_power, h],
    by simp [LTC2946_code_to_energy, LTC2946_code_to_power, h],
    by simp [LTC2946_code_to_coulombs, LTC2946_code_to_current, h],
    rfl, ?_, ?_, ?_⟩
  · unfold ReadVIN
    split
    · split
      · rfl
      · rfl
    · rfl
  · unfold ReadCurrent
    split
    · split
      · rfl
      · rfl
    · rfl
  · unfold ReadPower
    split
    · split
      · rfl
      · rfl
    · rfl

/-- Witness for C7: the sample device and the same device with the
legacy flag toggled share the resistor value, hence identical
conversions. -/
theorem conversions_pure_witness :
    sampleDev.resistor = (EnableLegacy sampleDev true).resistor ∧
    (LTC2946_code_to_current sampleDev 500 =
       LTC2946_code_to_current (EnableLegacy sampleDev true) 500 ∧
     LTC2946_code_to_power sampleDev 7 =
       LTC2946_code_to_power (EnableLegacy sampleDev true) 7 ∧
     LTC2946_code_to_energy sampleDev 7 =
       LTC2946_code_to_energy (EnableLegacy sampleDev true) 7 ∧
     LTC2946_code_to_coulombs sampleDev 500 =
       LTC2946_code_to_coulombs (EnableLegacy sampleDev true) 500 ∧
     LTC2946_code_to_time 3 = 3 * LTC2946_INTERNAL_TIME_lsb ∧
     (ReadVIN sampleDev 0xAB 0x0F 1).2 = recordAck sampleDev 1 ∧
     (ReadCurrent sampleDev 0xAB 0x0F 1).2 = recordAck sampleDev 1 ∧
     (ReadPower sampleDev 0x01 0x02 0x03 1).2 = recordAck sampleDev 1) :=
  ⟨rfl, conversions_pure sampleDev (EnableLegacy sampleDev true)
     500 7 3 0xAB 0x0F 0x01 0x02 0x03 1 rfl⟩

/-- Claim C8: with conversion disabled (`EnableConversion(false)` in
effect), `ReadVIN()`, `ReadCurrent()` and `ReadPower()` each return the
raw assembled register code as a floating value, with no scaling. -/
theorem reads_raw_when_conversion_disabled (s : LTC2946) (msb lsb b2 b1 b0 ack : ℕ) :
    (EnableConversion s false).use_conversion = false ∧
    (ReadVIN (EnableConversion s false) msb lsb ack).1 =
      (LTC2946_read_12_bits msb lsb : ℚ) ∧
    (ReadCurrent (EnableConversion s false) msb lsb ack).1 =
      (LTC2946_read_12_bits msb lsb : ℚ) ∧
    (ReadPower (EnableConversion s false) b2 b1 b0 ack).1 =
      (LTC2946_read_24_bits b2 b1 b0 : ℚ) := by
  exact ⟨rfl, rfl, rfl, rfl⟩

/-- Claim C9: `SetSnapShot()` issues no bus transaction and changes only
the stored mode field, setting it to snapshot (1); every other data
member is untouched. -/
theorem SetSnapShot_frame (s : LTC2946) :
    (SetSnapShot s).2 = [] ∧
    (SetSnapShot s).1.LTC2946_mode = 1 ∧
    (SetSnapShot s).1.I2C_ADDRESS = s.I2C_ADDRESS ∧
    (SetSnapShot s).1.I2C_WIRE = s.I2C_WIRE ∧
    (SetSnapShot s).1.I2C_ACK = s.I2C_ACK ∧
    (SetSnapShot s).1.use_conversion = s.use_conversion ∧
    (SetSnapShot s).1.use_legacy = s.use_legacy ∧
    (SetSnapShot s).1.VIN_CONST = s.VIN_CONST ∧
    (SetSnapShot s).1.CURRENT_CONST = s.CURRENT_CONST ∧
    (SetSnapShot s).1.POWER_CONST = s.POWER_CONST ∧
    (SetSnapShot s).1.resistor = s.resistor :=
  ⟨rfl, rfl, rfl, rfl, rfl, rfl, rfl, rfl, rfl, rfl, rfl⟩

/-- Claim C10: a freshly constructed device handle starts in continuous
mode (mode 0) with conversion and legacy flags false and a zero
acknowledgement accumulator, so `ErrorCheck()` called before any bus
transaction reports no errors (true). -/
theorem construct_initial_state (wire_num wire_addr : ℕ) :
    (LTC2946.construct wire_num wire_addr).LTC2946_mode = 0 ∧
    (LTC2946.construct wire_num wire_addr).use_conversion = false ∧
    (LTC2946.construct wire_num wire_addr).use_legacy = false ∧
    (LTC2946.construct wire_num wire_addr).I2C_ACK = 0 ∧
    (ErrorCheck (LTC2946.construct wire_num wire_addr)).1 = true :=
  ⟨rfl, rfl, rfl, rfl, rfl⟩
